import Mathlib

/-!
# Verification of the nvenc-rs encoder core

A shallow embedding of the asynchronous, ordered, bounded-depth handoff
pipeline of the `nvenc` crate (the "dispatch ring"), together with the
error-status conversions of `src/nvenc/src/error.rs`, the event-wait
contract of `src/nvenc/src/encoder/event/`, and the producer/consumer
halves `src/nvenc/src/encoder/encoder_input.rs` and
`src/nvenc/src/encoder/encoder_output.rs`.

The ring itself (`shared.rs`, `buffer_items.rs`, `raw_encoder.rs`) is not
among the available sources — only its callers are — so those parts are
modelled from the specification (sections 3, 4.1 and 6), as marked on each
definition.  Everything else is translated from the Rust sources.
-/

/-- Size of the ring buffer that is shared between the input and output
(`src/nvenc/src/encoder/builder.rs`, `BUFFER_SIZE`). -/
def BUFFER_SIZE : Nat := 8

/-- `NVENCSTATUS` of the NvEnc API.  The Rust type is produced by bindgen
from the vendor header (not among the sources); the variants and their
order are pinned down by `src/nvenc/src/error.rs`: `NonZeroNvencStatus`
mirrors them starting at discriminant 1 (its doc comment says the numbering
starts at 1 "to exclude NV_ENC_SUCCESS = 0"), and the crate's own test
`equiv_to_nvencstatus` lists the same 25 error variants in this order. -/
inductive NVENCSTATUS where
  | NV_ENC_SUCCESS
  | NV_ENC_ERR_NO_ENCODE_DEVICE
  | NV_ENC_ERR_UNSUPPORTED_DEVICE
  | NV_ENC_ERR_INVALID_ENCODERDEVICE
  | NV_ENC_ERR_INVALID_DEVICE
  | NV_ENC_ERR_DEVICE_NOT_EXIST
  | NV_ENC_ERR_INVALID_PTR
  | NV_ENC_ERR_INVALID_EVENT
  | NV_ENC_ERR_INVALID_PARAM
  | NV_ENC_ERR_INVALID_CALL
  | NV_ENC_ERR_OUT_OF_MEMORY
  | NV_ENC_ERR_ENCODER_NOT_INITIALIZED
  | NV_ENC_ERR_UNSUPPORTED_PARAM
  | NV_ENC_ERR_LOCK_BUSY
  | NV_ENC_ERR_NOT_ENOUGH_BUFFER
  | NV_ENC_ERR_INVALID_VERSION
  | NV_ENC_ERR_MAP_FAILED
  | NV_ENC_ERR_NEED_MORE_INPUT
  | NV_ENC_ERR_ENCODER_BUSY
  | NV_ENC_ERR_EVENT_NOT_REGISTERD
  | NV_ENC_ERR_GENERIC
  | NV_ENC_ERR_INCOMPATIBLE_CLIENT_KEY
  | NV_ENC_ERR_UNIMPLEMENTED
  | NV_ENC_ERR_RESOURCE_REGISTER_FAILED
  | NV_ENC_ERR_RESOURCE_NOT_REGISTERED
  | NV_ENC_ERR_RESOURCE_NOT_MAPPED
  deriving DecidableEq, Repr, Fintype

/-- The i32 discriminant of `NVENCSTATUS` (`NV_ENC_SUCCESS = 0`, the rest
consecutive, as asserted by the crate's test `nv_enc_success_is_zero`). -/
def NVENCSTATUS.code : NVENCSTATUS → Nat
  | .NV_ENC_SUCCESS => 0
  | .NV_ENC_ERR_NO_ENCODE_DEVICE => 1
  | .NV_ENC_ERR_UNSUPPORTED_DEVICE => 2
  | .NV_ENC_ERR_INVALID_ENCODERDEVICE => 3
  | .NV_ENC_ERR_INVALID_DEVICE => 4
  | .NV_ENC_ERR_DEVICE_NOT_EXIST => 5
  | .NV_ENC_ERR_INVALID_PTR => 6
  | .NV_ENC_ERR_INVALID_EVENT => 7
  | .NV_ENC_ERR_INVALID_PARAM => 8
  | .NV_ENC_ERR_INVALID_CALL => 9
  | .NV_ENC_ERR_OUT_OF_MEMORY => 10
  | .NV_ENC_ERR_ENCODER_NOT_INITIALIZED => 11
  | .NV_ENC_ERR_UNSUPPORTED_PARAM => 12
  | .NV_ENC_ERR_LOCK_BUSY => 13
  | .NV_ENC_ERR_NOT_ENOUGH_BUFFER => 14
  | .NV_ENC_ERR_INVALID_VERSION => 15
  | .NV_ENC_ERR_MAP_FAILED => 16
  | .NV_ENC_ERR_NEED_MORE_INPUT => 17
  | .NV_ENC_ERR_ENCODER_BUSY => 18
  | .NV_ENC_ERR_EVENT_NOT_REGISTERD => 19
  | .NV_ENC_ERR_GENERIC => 20
  | .NV_ENC_ERR_INCOMPATIBLE_CLIENT_KEY => 21
  | .NV_ENC_ERR_UNIMPLEMENTED => 22
  | .NV_ENC_ERR_RESOURCE_REGISTER_FAILED => 23
  | .NV_ENC_ERR_RESOURCE_NOT_REGISTERED => 24
  | .NV_ENC_ERR_RESOURCE_NOT_MAPPED => 25

/-- `NonZeroNvencStatus` of `src/nvenc/src/error.rs` lines 61–158:
the 25 non-success statuses, `#[repr(i32)]` starting at discriminant 1. -/
inductive NonZeroNvencStatus where
  | NV_ENC_ERR_NO_ENCODE_DEVICE
  | NV_ENC_ERR_UNSUPPORTED_DEVICE
  | NV_ENC_ERR_INVALID_ENCODERDEVICE
  | NV_ENC_ERR_INVALID_DEVICE
  | NV_ENC_ERR_DEVICE_NOT_EXIST
  | NV_ENC_ERR_INVALID_PTR
  | NV_ENC_ERR_INVALID_EVENT
  | NV_ENC_ERR_INVALID_PARAM
  | NV_ENC_ERR_INVALID_CALL
  | NV_ENC_ERR_OUT_OF_MEMORY
  | NV_ENC_ERR_ENCODER_NOT_INITIALIZED
  | NV_ENC_ERR_UNSUPPORTED_PARAM
  | NV_ENC_ERR_LOCK_BUSY
  | NV_ENC_ERR_NOT_ENOUGH_BUFFER
  | NV_ENC_ERR_INVALID_VERSION
  | NV_ENC_ERR_MAP_FAILED
  | NV_ENC_ERR_NEED_MORE_INPUT
  | NV_ENC_ERR_ENCODER_BUSY
  | NV_ENC_ERR_EVENT_NOT_REGISTERD
  | NV_ENC_ERR_GENERIC
  | NV_ENC_ERR_INCOMPATIBLE_CLIENT_KEY
  | NV_ENC_ERR_UNIMPLEMENTED
  | NV_ENC_ERR_RESOURCE_REGISTER_FAILED
  | NV_ENC_ERR_RESOURCE_NOT_REGISTERED
  | NV_ENC_ERR_RESOURCE_NOT_MAPPED
  deriving DecidableEq, Repr, Fintype

/-- The i32 discriminant of `NonZeroNvencStatus` (starts at 1, error.rs
line 66). -/
def NonZeroNvencStatus.code : NonZeroNvencStatus → Nat
  | .NV_ENC_ERR_NO_ENCODE_DEVICE => 1
  | .NV_ENC_ERR_UNSUPPORTED_DEVICE => 2
  | .NV_ENC_ERR_INVALID_ENCODERDEVICE => 3
  | .NV_ENC_ERR_INVALID_DEVICE => 4
  | .NV_ENC_ERR_DEVICE_NOT_EXIST => 5
  | .NV_ENC_ERR_INVALID_PTR => 6
  | .NV_ENC_ERR_INVALID_EVENT => 7
  | .NV_ENC_ERR_INVALID_PARAM => 8
  | .NV_ENC_ERR_INVALID_CALL => 9
  | .NV_ENC_ERR_OUT_OF_MEMORY => 10
  | .NV_ENC_ERR_ENCODER_NOT_INITIALIZED => 11
  | .NV_ENC_ERR_UNSUPPORTED_PARAM => 12
  | .NV_ENC_ERR_LOCK_BUSY => 13
  | .NV_ENC_ERR_NOT_ENOUGH_BUFFER => 14
  | .NV_ENC_ERR_INVALID_VERSION => 15
  | .NV_ENC_ERR_MAP_FAILED => 16
  | .NV_ENC_ERR_NEED_MORE_INPUT => 17
  | .NV_ENC_ERR_ENCODER_BUSY => 18
  | .NV_ENC_ERR_EVENT_NOT_REGISTERD => 19
  | .NV_ENC_ERR_GENERIC => 20
  | .NV_ENC_ERR_INCOMPATIBLE_CLIENT_KEY => 21
  | .NV_ENC_ERR_UNIMPLEMENTED => 22
  | .NV_ENC_ERR_RESOURCE_REGISTER_FAILED => 23
  | .NV_ENC_ERR_RESOURCE_NOT_REGISTERED => 24
  | .NV_ENC_ERR_RESOURCE_NOT_MAPPED => 25

/-- `NonZeroNvencStatus::from_nvenc_status` (error.rs lines 160–169):
`NV_ENC_SUCCESS` maps to `None`; any other status is reinterpreted by an
i32-discriminant-preserving `transmute`, modelled by the same-named
constructor (discriminants agree, see `NVENCSTATUS.code` and
`NonZeroNvencStatus.code`). -/
def NonZeroNvencStatus.from_nvenc_status : NVENCSTATUS → Option NonZeroNvencStatus
  | .NV_ENC_SUCCESS => none
  | .NV_ENC_ERR_NO_ENCODE_DEVICE => some .NV_ENC_ERR_NO_ENCODE_DEVICE
  | .NV_ENC_ERR_UNSUPPORTED_DEVICE => some .NV_ENC_ERR_UNSUPPORTED_DEVICE
  | .NV_ENC_ERR_INVALID_ENCODERDEVICE => some .NV_ENC_ERR_INVALID_ENCODERDEVICE
  | .NV_ENC_ERR_INVALID_DEVICE => some .NV_ENC_ERR_INVALID_DEVICE
  | .NV_ENC_ERR_DEVICE_NOT_EXIST => some .NV_ENC_ERR_DEVICE_NOT_EXIST
  | .NV_ENC_ERR_INVALID_PTR => some .NV_ENC_ERR_INVALID_PTR
  | .NV_ENC_ERR_INVALID_EVENT => some .NV_ENC_ERR_INVALID_EVENT
  | .NV_ENC_ERR_INVALID_PARAM => some .NV_ENC_ERR_INVALID_PARAM
  | .NV_ENC_ERR_INVALID_CALL => some .NV_ENC_ERR_INVALID_CALL
  | .NV_ENC_ERR_OUT_OF_MEMORY => some .NV_ENC_ERR_OUT_OF_MEMORY
  | .NV_ENC_ERR_ENCODER_NOT_INITIALIZED => some .NV_ENC_ERR_ENCODER_NOT_INITIALIZED
  | .NV_ENC_ERR_UNSUPPORTED_PARAM => some .NV_ENC_ERR_UNSUPPORTED_PARAM
  | .NV_ENC_ERR_LOCK_BUSY => some .NV_ENC_ERR_LOCK_BUSY
  | .NV_ENC_ERR_NOT_ENOUGH_BUFFER => some .NV_ENC_ERR_NOT_ENOUGH_BUFFER
  | .NV_ENC_ERR_INVALID_VERSION => some .NV_ENC_ERR_INVALID_VERSION
  | .NV_ENC_ERR_MAP_FAILED => some .NV_ENC_ERR_MAP_FAILED
  | .NV_ENC_ERR_NEED_MORE_INPUT => some .NV_ENC_ERR_NEED_MORE_INPUT
  | .NV_ENC_ERR_ENCODER_BUSY => some .NV_ENC_ERR_ENCODER_BUSY
  | .NV_ENC_ERR_EVENT_NOT_REGISTERD => some .NV_ENC_ERR_EVENT_NOT_REGISTERD
  | .NV_ENC_ERR_GENERIC => some .NV_ENC_ERR_GENERIC
  | .NV_ENC_ERR_INCOMPATIBLE_CLIENT_KEY => some .NV_ENC_ERR_INCOMPATIBLE_CLIENT_KEY
  | .NV_ENC_ERR_UNIMPLEMENTED => some .NV_ENC_ERR_UNIMPLEMENTED
  | .NV_ENC_ERR_RESOURCE_REGISTER_FAILED => some .NV_ENC_ERR_RESOURCE_REGISTER_FAILED
  | .NV_ENC_ERR_RESOURCE_NOT_REGISTERED => some .NV_ENC_ERR_RESOURCE_NOT_REGISTERED
  | .NV_ENC_ERR_RESOURCE_NOT_MAPPED => some .NV_ENC_ERR_RESOURCE_NOT_MAPPED

/-- `NonZeroNvencStatus::into_nvenc_status` (error.rs lines 171–175): the
inverse i32-discriminant-preserving reinterpretation. -/
def NonZeroNvencStatus.into_nvenc_status : NonZeroNvencStatus → NVENCSTATUS
  | .NV_ENC_ERR_NO_ENCODE_DEVICE => .NV_ENC_ERR_NO_ENCODE_DEVICE
  | .NV_ENC_ERR_UNSUPPORTED_DEVICE => .NV_ENC_ERR_UNSUPPORTED_DEVICE
  | .NV_ENC_ERR_INVALID_ENCODERDEVICE => .NV_ENC_ERR_INVALID_ENCODERDEVICE
  | .NV_ENC_ERR_INVALID_DEVICE => .NV_ENC_ERR_INVALID_DEVICE
  | .NV_ENC_ERR_DEVICE_NOT_EXIST => .NV_ENC_ERR_DEVICE_NOT_EXIST
  | .NV_ENC_ERR_INVALID_PTR => .NV_ENC_ERR_INVALID_PTR
  | .NV_ENC_ERR_INVALID_EVENT => .NV_ENC_ERR_INVALID_EVENT
  | .NV_ENC_ERR_INVALID_PARAM => .NV_ENC_ERR_INVALID_PARAM
  | .NV_ENC_ERR_INVALID_CALL => .NV_ENC_ERR_INVALID_CALL
  | .NV_ENC_ERR_OUT_OF_MEMORY => .NV_ENC_ERR_OUT_OF_MEMORY
  | .NV_ENC_ERR_ENCODER_NOT_INITIALIZED => .NV_ENC_ERR_ENCODER_NOT_INITIALIZED
  | .NV_ENC_ERR_UNSUPPORTED_PARAM => .NV_ENC_ERR_UNSUPPORTED_PARAM
  | .NV_ENC_ERR_LOCK_BUSY => .NV_ENC_ERR_LOCK_BUSY
  | .NV_ENC_ERR_NOT_ENOUGH_BUFFER => .NV_ENC_ERR_NOT_ENOUGH_BUFFER
  | .NV_ENC_ERR_INVALID_VERSION => .NV_ENC_ERR_INVALID_VERSION
  | .NV_ENC_ERR_MAP_FAILED => .NV_ENC_ERR_MAP_FAILED
  | .NV_ENC_ERR_NEED_MORE_INPUT => .NV_ENC_ERR_NEED_MORE_INPUT
  | .NV_ENC_ERR_ENCODER_BUSY => .NV_ENC_ERR_ENCODER_BUSY
  | .NV_ENC_ERR_EVENT_NOT_REGISTERD => .NV_ENC_ERR_EVENT_NOT_REGISTERD
  | .NV_ENC_ERR_GENERIC => .NV_ENC_ERR_GENERIC
  | .NV_ENC_ERR_INCOMPATIBLE_CLIENT_KEY => .NV_ENC_ERR_INCOMPATIBLE_CLIENT_KEY
  | .NV_ENC_ERR_UNIMPLEMENTED => .NV_ENC_ERR_UNIMPLEMENTED
  | .NV_ENC_ERR_RESOURCE_REGISTER_FAILED => .NV_ENC_ERR_RESOURCE_REGISTER_FAILED
  | .NV_ENC_ERR_RESOURCE_NOT_REGISTERED => .NV_ENC_ERR_RESOURCE_NOT_REGISTERED
  | .NV_ENC_ERR_RESOURCE_NOT_MAPPED => .NV_ENC_ERR_RESOURCE_NOT_MAPPED

/-- `NvEncError` (src/nvenc/src/error.rs lines 1–41). -/
inductive NvEncError where
  | Sys (status : NonZeroNvencStatus)
  | LibraryNotSigned
  | LibraryLoadingFailed
  | GetMaxSupportedVersionLoadingFailed
  | CreateInstanceLoadingFailed
  | UnsupportedVersion
  | MalformedFunctionList
  | UnsupportedCodec
  | CodecNotSet
  | CodecProfileNotSupported
  | EncodePresetNotSet
  | TextureBufferCreationFailed
  | EventObjectCreationFailed
  | EventObjectWaitError
  | EventObjectWaitTimeout
  | EndOfStream
  deriving DecidableEq, Repr, Fintype

/-- `NvEncError::from_nvenc_status` (error.rs lines 46–49). -/
def NvEncError.from_nvenc_status (status : NVENCSTATUS) : Option NvEncError :=
  (NonZeroNvencStatus.from_nvenc_status status).map (fun s => NvEncError.Sys s)

/-- `NvEncError::into_nvenc_status` (error.rs lines 52–58). -/
def NvEncError.into_nvenc_status : NvEncError → Option NVENCSTATUS
  | .Sys status => some status.into_nvenc_status
  | _ => none

/-- The same-named-constructor model of the `transmute` in
`NonZeroNvencStatus::from_nvenc_status` is discriminant-faithful: the
produced value carries exactly the discriminant of the input status. -/
theorem from_nvenc_status_code_faithful :
    ∀ s : NVENCSTATUS, ∀ e : NonZeroNvencStatus,
      NonZeroNvencStatus.from_nvenc_status s = some e → e.code = s.code := by
  decide

/-- The inverse reinterpretation is also discriminant-faithful. -/
theorem into_nvenc_status_code_faithful :
    ∀ e : NonZeroNvencStatus, e.into_nvenc_status.code = e.code := by
  decide

/-- C9: `NvEncError::from_nvenc_status` returns `None` if and only if the
status is `NV_ENC_SUCCESS`, and for every non-success `NVENCSTATUS` value
`s`, converting the resulting error back with `into_nvenc_status` yields
exactly `s`. -/
theorem c9_from_nvenc_status_none_iff_success_and_roundtrip :
    ∀ s : NVENCSTATUS,
      (NvEncError.from_nvenc_status s = none ↔ s = NVENCSTATUS.NV_ENC_SUCCESS) ∧
      (∀ e : NvEncError, NvEncError.from_nvenc_status s = some e →
        e.into_nvenc_status = some s) := by
  decide

/-- Witness for C9 at a concrete non-success status: the round trip on
`NV_ENC_ERR_LOCK_BUSY` returns the same status, and success maps to `none`. -/
theorem c9_from_nvenc_status_none_iff_success_and_roundtrip_witness :
    NvEncError.from_nvenc_status NVENCSTATUS.NV_ENC_ERR_LOCK_BUSY =
      some (NvEncError.Sys NonZeroNvencStatus.NV_ENC_ERR_LOCK_BUSY) ∧
    (NvEncError.Sys NonZeroNvencStatus.NV_ENC_ERR_LOCK_BUSY).into_nvenc_status =
      some NVENCSTATUS.NV_ENC_ERR_LOCK_BUSY ∧
    NvEncError.from_nvenc_status NVENCSTATUS.NV_ENC_SUCCESS = none := by
  refine ⟨by decide, ?_, ?_⟩
  · exact (c9_from_nvenc_status_none_iff_success_and_roundtrip
      NVENCSTATUS.NV_ENC_ERR_LOCK_BUSY).2
      (NvEncError.Sys NonZeroNvencStatus.NV_ENC_ERR_LOCK_BUSY) (by decide)
  · exact (c9_from_nvenc_status_none_iff_success_and_roundtrip
      NVENCSTATUS.NV_ENC_SUCCESS).1.mpr rfl

/-! ## Completion signal primitive (src/nvenc/src/encoder/event/) -/

/-- Outcome of the OS-level blocking wait with no timeout: either the event
object was signaled by the driver, or the wait itself failed.  An
indefinite wait cannot time out. -/
inductive IndefiniteWaitOutcome where
  | signaled
  | osError
  deriving DecidableEq, Repr

/-- Modelled from the spec: the no-timeout blocking wait of the completion
signal primitive.  `EventObjectTrait::wait(&self)` is declared with no
timeout parameter in src/nvenc/src/encoder/event/mod.rs lines 14–20; the
platform body behind it is not among the sources (section 6: "a completion
signal primitive: creatable, waitable (blocking, no-timeout and timeout
variants), and settable only by the external driver"; section 4.4 step 2:
indefinite wait).  Success maps to `Ok(())`; an OS-level wait failure maps
to `EventObjectWaitError`. -/
def eventObjWait : IndefiniteWaitOutcome → Option NvEncError
  | .signaled => none
  | .osError => some NvEncError.EventObjectWaitError

/-- Result of the Win32 call `WaitForSingleObject`
(src/nvenc/src/encoder/event/windows.rs lines 26–32 matches on these). -/
inductive WaitObjectStatus where
  | WAIT_OBJECT_0
  | WAIT_TIMEOUT
  | WAIT_FAILED
  deriving DecidableEq, Repr

/-- The bounded-timeout wait variant of `EventObject`
(src/nvenc/src/encoder/event/windows.rs lines 26–32):
`WAIT_OBJECT_0` maps to `Ok(())`, `WAIT_TIMEOUT` to
`EventObjectWaitTimeout`, and anything else to `EventObjectWaitError`. -/
def eventObjWaitWithTimeout : WaitObjectStatus → Option NvEncError
  | .WAIT_OBJECT_0 => none
  | .WAIT_TIMEOUT => some NvEncError.EventObjectWaitTimeout
  | .WAIT_FAILED => some NvEncError.EventObjectWaitError

/-! ## Data model of the dispatch ring -/

/-- Lifecycle state of a slot (spec section 4.2: FREE, SUBMITTED, LOCKED).
`buffer_items.rs` is not among the sources; the states are modelled from
the spec's slot lifecycle state machine. -/
inductive SlotState where
  | free
  | submitted
  | locked
  deriving DecidableEq, Repr

/-- Modelled from the spec: one element of the ring
(`EncoderBufferItems` of the absent `buffer_items.rs`).  Field names follow
the uses in encoder_input.rs and encoder_output.rs
(`registered_resource`, `mapped_input`, `output_buffer`, `event_obj`,
`end_of_stream`); `content` stands for the frame data held by the slot's
texture-buffer entry, and `eventSet` for the state of the slot's completion
signal (settable only by the external driver). -/
structure EncoderBufferItems where
  state : SlotState
  registeredResource : Nat
  mappedInput : Option Nat
  outputBuffer : Nat
  eventPtr : Nat
  eventSet : Bool
  endOfStream : Bool
  content : Nat
  deriving DecidableEq, Repr

/-- Modelled from the spec: the shared dispatch ring (`shared.rs` is not
among the sources; spec sections 3 and 4.1): capacity `BUFFER_SIZE` slots,
a submission counter (`submission_count`, round-robin write target
`head % BUFFER_SIZE`), and a FIFO ordering channel carrying slot
indices. -/
structure NvidiaEncoderShared where
  slots : Fin BUFFER_SIZE → EncoderBufferItems
  head : Nat
  channel : List (Fin BUFFER_SIZE)

instance : DecidableEq NvidiaEncoderShared := fun a b =>
  decidable_of_iff
    (a.slots = b.slots ∧ a.head = b.head ∧ a.channel = b.channel)
    (by cases a; cases b; simp)

/-- The slot index `k % BUFFER_SIZE` as an element of `Fin BUFFER_SIZE`. -/
def finMod (k : Nat) : Fin BUFFER_SIZE :=
  ⟨k % BUFFER_SIZE, Nat.mod_lt k (by decide)⟩

/-- Modelled from the spec: `acquire_slot_for_write` of the Dispatch Ring
(section 4.1): the next write target is always slot
`submission_count mod C`; the call blocks until that slot is FREE.
Returns `none` when the producer would block. -/
def acquireSlotForWrite (s : NvidiaEncoderShared) : Option (Fin BUFFER_SIZE) :=
  let i := finMod s.head
  if (s.slots i).state = SlotState.free then some i else none

/-- Modelled from the spec: `publish(index)` of the Dispatch Ring (section
4.1) pushes the index into the FIFO ordering channel; the submission
counter advances past the published slot. -/
def publish (s : NvidiaEncoderShared) (i : Fin BUFFER_SIZE) : NvidiaEncoderShared :=
  { s with channel := s.channel ++ [i], head := s.head + 1 }

/-! ## NV_ENC_PIC_PARAMS and the producer half -/

/-- The fields of `NV_ENC_PIC_PARAMS` that the crate reads or writes
(encoder_input.rs lines 38–48, 96–110, 119–131), plus `otherFields`
standing for every remaining field of the vendor struct.  Pointers are
modelled as `Option Nat`, `none` being null. -/
structure NV_ENC_PIC_PARAMS where
  version : Nat
  inputWidth : Nat
  inputHeight : Nat
  inputPitch : Nat
  bufferFmt : Nat
  pictureStruct : Nat
  inputBuffer : Option Nat
  outputBitstream : Option Nat
  completionEvent : Option Nat
  inputTimeStamp : Nat
  encodePicFlags : Nat
  otherFields : Nat
  deriving DecidableEq, Repr

/-- `NV_ENC_PIC_FLAGS::NV_ENC_PIC_FLAG_FORCEIDR` (vendor header value). -/
def NV_ENC_PIC_FLAG_FORCEIDR : Nat := 2

/-- `NV_ENC_PIC_FLAGS::NV_ENC_PIC_FLAG_OUTPUT_SPSPPS` (vendor header value). -/
def NV_ENC_PIC_FLAG_OUTPUT_SPSPPS : Nat := 4

/-- `NV_ENC_PIC_FLAGS::NV_ENC_PIC_FLAG_EOS` (vendor header value). -/
def NV_ENC_PIC_FLAG_EOS : Nat := 8

/-- The state owned by `EncoderInput`: the shared ring (through
`NvidiaEncoderWriter`) and the persistent `encode_pic_params` record
(encoder_input.rs lines 12–18). -/
structure EncoderInputState where
  shared : NvidiaEncoderShared
  encodePicParams : NV_ENC_PIC_PARAMS
  deriving DecidableEq

/-- Outcomes of the external collaborator calls made during
`encode_frame`: `mapResult` for `map_input_resource` (`none` = success, in
which case the driver hands back the pointer `mappedPtr`) and
`encodeResult` for `encode_picture` (`none` = accepted). -/
structure EncodeExternals where
  mapResult : Option NvEncError
  mappedPtr : Nat
  encodeResult : Option NvEncError
  deriving DecidableEq, Repr

/-- Result of one producer call.  `blocked` means the call would park on
`acquire_slot_for_write` (backpressure) without touching any state; `ok`
carries the `NV_ENC_PIC_PARAMS` snapshot handed to the external submission
call, the slot index used, and the post state. -/
inductive EncodeOutcome where
  | blocked
  | failed (e : NvEncError) (st : EncoderInputState)
  | ok (submittedParams : NV_ENC_PIC_PARAMS) (usedIndex : Fin BUFFER_SIZE)
      (st : EncoderInputState)
  deriving DecidableEq

/-- `EncoderInput::encode_frame` (encoder_input.rs lines 86–113).  The
closure passed to `writer.write` copies the texture into the slot's
texture-buffer entry, maps the registered input resource, and binds the
input/output/event pointers into `encode_pic_params`; then
`inputTimeStamp` is set and the external `encode_picture` call is issued;
on success the flags are reset to 0.  Ring bookkeeping (`write` acquiring
the round-robin FREE slot, publication of the index only when the
submission call succeeds, rollback keeping the slot FREE on failure) is
modelled from the spec, sections 4.1 and 4.3, because `shared.rs` is not
among the sources. -/
def encodeFrame (st : EncoderInputState) (texture : Nat) (timestamp : Nat)
    (ext : EncodeExternals) : EncodeOutcome :=
  match acquireSlotForWrite st.shared with
  | none => .blocked
  | some i =>
    let slot0 := st.shared.slots i
    -- device.copy_texture(&self.texture_buffer, texture, index)
    let slot1 := { slot0 with content := texture }
    match ext.mapResult with
    | some e =>
      -- closure fails before binding any pointer: error surfaced, no publish
      .failed e { st with shared :=
        { st.shared with slots := Function.update st.shared.slots i slot1 } }
    | none =>
      let slot2 := { slot1 with mappedInput := some ext.mappedPtr, eventSet := false }
      let pp := { st.encodePicParams with
                  inputBuffer := some ext.mappedPtr,
                  outputBitstream := some slot2.outputBuffer,
                  completionEvent := some slot2.eventPtr,
                  inputTimeStamp := timestamp }
      let shared1 := { st.shared with slots := Function.update st.shared.slots i slot2 }
      match ext.encodeResult with
      | some e =>
        -- external submission failed: slot stays FREE, nothing published
        .failed e { shared := shared1, encodePicParams := pp }
      | none =>
        let shared2 := publish
          { shared1 with slots :=
              Function.update shared1.slots i { slot2 with state := SlotState.submitted } } i
        .ok pp i { shared := shared2,
                   encodePicParams := { pp with encodePicFlags := 0 } }

/-- `EncoderInput::force_idr_on_next` (encoder_input.rs lines 117–122). -/
def forceIdrOnNext (st : EncoderInputState) : EncoderInputState :=
  { st with encodePicParams := { st.encodePicParams with
      encodePicFlags := NV_ENC_PIC_FLAG_FORCEIDR ||| NV_ENC_PIC_FLAG_OUTPUT_SPSPPS } }

/-- `EncoderInput::end_encode` (encoder_input.rs lines 124–140): the
closure sets the slot's `end_of_stream` flag, nulls the input and output
pointers, binds the completion event and the EOS picture flag; then the
external `encode_picture` call is issued.  No flag reset follows.  Ring
bookkeeping is modelled from the spec as in `encodeFrame`. -/
def endEncode (st : EncoderInputState) (encodeResult : Option NvEncError) :
    EncodeOutcome :=
  match acquireSlotForWrite st.shared with
  | none => .blocked
  | some i =>
    let slot0 := st.shared.slots i
    let slot1 := { slot0 with endOfStream := true, eventSet := false }
    let pp := { st.encodePicParams with
                inputBuffer := none,
                outputBitstream := none,
                completionEvent := some slot1.eventPtr,
                encodePicFlags := NV_ENC_PIC_FLAG_EOS }
    let shared1 := { st.shared with slots := Function.update st.shared.slots i slot1 }
    match encodeResult with
    | some e => .failed e { shared := shared1, encodePicParams := pp }
    | none =>
      let shared2 := publish
        { shared1 with slots :=
            Function.update shared1.slots i { slot1 with state := SlotState.submitted } } i
      .ok pp i { shared := shared2, encodePicParams := pp }

/-- `impl Drop for EncoderInput` (encoder_input.rs lines 25–29): dropping
the producer handle makes exactly one `end_encode` call and discards its
result. -/
def dropEncoderInput (st : EncoderInputState) (encodeResult : Option NvEncError) :
    EncodeOutcome :=
  endEncode st encodeResult

/-! ## The consumer half (src/nvenc/src/encoder/encoder_output.rs) -/

/-- Outcomes of the external collaborator calls made during
`wait_for_output`: `lock_bitstream`, `unlock_bitstream`,
`unmap_input_resource` (`none` = success). -/
structure OutputExternals where
  lockResult : Option NvEncError
  unlockResult : Option NvEncError
  unmapResult : Option NvEncError
  deriving DecidableEq, Repr

/-- How many times one `wait_for_output` call invoked each external
collaborator operation and the caller's `consume_output` closure. -/
structure ExtCallCounts where
  lockCalls : Nat
  consumeCalls : Nat
  unlockCalls : Nat
  unmapCalls : Nat
  deriving DecidableEq, Repr

/-- Result of one consumer call.  `blocked` means the call would park on
the empty ordering channel; the other outcomes carry the post ring state
and the external-call counts.  `ok` also carries the locked bitstream
content handed to `consume_output`. -/
inductive OutputOutcome where
  | blocked
  | failed (e : NvEncError) (sh : NvidiaEncoderShared) (calls : ExtCallCounts)
  | ok (consumed : Nat) (sh : NvidiaEncoderShared) (calls : ExtCallCounts)
  deriving DecidableEq

/-- `EncoderOutput::wait_for_output` (encoder_output.rs lines 14–43).
The closure body is translated statement for statement: wait on the slot's
completion signal (`?`), return `EndOfStream` if the slot is flagged
end-of-stream, `lock_bitstream` (`?`), call `consume_output` (its return
type is `()`, it cannot fail), `unlock_bitstream` (`?`),
`unmap_input_resource` (`?`).  Each `?` returns early, skipping everything
after it.  Ring bookkeeping is modelled from the spec (`shared.rs` absent;
section 4.1 and 4.4): `read` pops the next index from the FIFO channel
(blocking while it is empty) and releases the slot to FREE only when the
closure returns `Ok`; the completion signal is consumed by a successful
wait (the event object is created auto-reset, event/windows.rs line 20). -/
def waitForOutput (s : NvidiaEncoderShared) (wait : IndefiniteWaitOutcome)
    (ext : OutputExternals) : OutputOutcome :=
  match s.channel with
  | [] => .blocked
  | i :: rest =>
    match eventObjWait wait with
    | some e => .failed e { s with channel := rest }
        { lockCalls := 0, consumeCalls := 0, unlockCalls := 0, unmapCalls := 0 }
    | none =>
      let slot := { s.slots i with eventSet := false }
      let sh1 : NvidiaEncoderShared :=
        { s with channel := rest, slots := Function.update s.slots i slot }
      if slot.endOfStream then
        .failed NvEncError.EndOfStream sh1
          { lockCalls := 0, consumeCalls := 0, unlockCalls := 0, unmapCalls := 0 }
      else
        match ext.lockResult with
        | some e => .failed e sh1
            { lockCalls := 1, consumeCalls := 0, unlockCalls := 0, unmapCalls := 0 }
        | none =>
          -- consume_output(&lock_params): the locked view exposes the
          -- bitstream the hardware produced for this slot's frame
          let consumed := slot.content
          match ext.unlockResult with
          | some e => .failed e sh1
              { lockCalls := 1, consumeCalls := 1, unlockCalls := 1, unmapCalls := 0 }
          | none =>
            match ext.unmapResult with
            | some e => .failed e sh1
                { lockCalls := 1, consumeCalls := 1, unlockCalls := 1, unmapCalls := 1 }
            | none =>
              .ok consumed
                { sh1 with slots :=
                    Function.update sh1.slots i { slot with state := SlotState.free } }
                { lockCalls := 1, consumeCalls := 1, unlockCalls := 1, unmapCalls := 1 }

/-- The error of a consumer outcome, if it failed. -/
def OutputOutcome.errOf : OutputOutcome → Option NvEncError
  | .failed e _ _ => some e
  | _ => none

/-- The external-call counts of a consumer outcome (`blocked` made none). -/
def OutputOutcome.callsOf : OutputOutcome → ExtCallCounts
  | .blocked => { lockCalls := 0, consumeCalls := 0, unlockCalls := 0, unmapCalls := 0 }
  | .failed _ _ c => c
  | .ok _ _ c => c

/-- The post ring state of a consumer outcome, if any. -/
def OutputOutcome.sharedOf : OutputOutcome → Option NvidiaEncoderShared
  | .blocked => none
  | .failed _ sh _ => some sh
  | .ok _ sh _ => some sh

/-! ## The two-sided pipeline as a labelled transition system

For the end-to-end claims (ordering, capacity, round-robin) the producer,
the consumer and the driver are interleaved arbitrarily.  `signal i` is the
external driver setting slot `i`'s completion signal — at any time, in any
order.  `submit`/`recv` only fire on their success paths (all external
collaborator calls succeed); `recv` additionally requires the completion
signal of the specific slot named by the next queued index, which models
the consumer's blocking wait on that slot. -/

/-- One interleaved action of the pipeline. -/
inductive EncoderAct where
  | submit (texture : Nat) (timestamp : Nat)
  | signal (i : Fin BUFFER_SIZE)
  | recv
  deriving DecidableEq, Repr

/-- The whole system: the encoder state plus the histories of submitted
frame contents and of contents delivered to `consume_output`. -/
structure PipelineSys where
  enc : EncoderInputState
  submitted : List Nat
  received : List Nat
  deriving DecidableEq

/-- All-success outcomes for the producer's external calls. -/
def extAllOk : EncodeExternals :=
  { mapResult := none, mappedPtr := 1, encodeResult := none }

/-- All-success outcomes for the consumer's external calls. -/
def outExtAllOk : OutputExternals :=
  { lockResult := none, unlockResult := none, unmapResult := none }

/-- One step of the interleaved pipeline; `none` when the action blocks or
is not enabled. -/
def pipelineStep (s : PipelineSys) : EncoderAct → Option PipelineSys
  | .submit t ts =>
    match encodeFrame s.enc t ts extAllOk with
    | .ok _ _ st' =>
      some { enc := st', submitted := s.submitted ++ [t], received := s.received }
    | _ => none
  | .signal i =>
    some { s with enc := { s.enc with shared := { s.enc.shared with
      slots := Function.update s.enc.shared.slots i
        { s.enc.shared.slots i with eventSet := true } } } }
  | .recv =>
    match s.enc.shared.channel with
    | [] => none
    | i :: _ =>
      if (s.enc.shared.slots i).eventSet then
        match waitForOutput s.enc.shared IndefiniteWaitOutcome.signaled outExtAllOk with
        | .ok v sh' _ =>
          some { enc := { s.enc with shared := sh' },
                 submitted := s.submitted, received := s.received ++ [v] }
        | _ => none
      else none

/-- Run a list of pipeline actions in order. -/
def runPipeline (s : PipelineSys) : List EncoderAct → Option PipelineSys
  | [] => some s
  | a :: rest =>
    match pipelineStep s a with
    | none => none
    | some s' => runPipeline s' rest

/-- The ring as built by `EncoderBuilder::build` (builder.rs lines
163–198): `BUFFER_SIZE` fresh slots, all FREE, no frame content, events
unsignaled, nothing published.  Slot `i` owns output buffer and event
object `i` (stand-ins for the opaque handles). -/
def initShared : NvidiaEncoderShared :=
  { slots := fun i =>
      { state := SlotState.free, registeredResource := i.val,
        mappedInput := none, outputBuffer := i.val, eventPtr := i.val,
        eventSet := false, endOfStream := false, content := 0 },
    head := 0, channel := [] }

/-- The initial pipeline system for an arbitrary initial
`encode_pic_params` record (built by `EncoderInput::new`, encoder_input.rs
lines 38–48). -/
def initSys (pp : NV_ENC_PIC_PARAMS) : PipelineSys :=
  { enc := { shared := initShared, encodePicParams := pp },
    submitted := [], received := [] }

/-! ## The in-flight window and the pipeline invariant -/

/-- The slot indices of submissions `R, R+1, …, S-1` (received count `R`,
submitted count `S`), in FIFO order — the expected contents of the
ordering channel. -/
def window (R S : Nat) : List (Fin BUFFER_SIZE) :=
  (List.range (S - R)).map (fun k => finMod (R + k))

theorem window_self (R : Nat) : window R R = [] := by
  simp [window]

theorem window_length (R S : Nat) : (window R S).length = S - R := by
  simp [window]

theorem window_succ {R S : Nat} (h : R ≤ S) :
    window R (S + 1) = window R S ++ [finMod S] := by
  unfold window
  have h1 : S + 1 - R = (S - R) + 1 := by omega
  rw [h1, List.range_succ, List.map_append]
  have h2 : R + (S - R) = S := by omega
  simp [h2]

theorem window_cons {R S : Nat} (h : R < S) :
    window R S = finMod R :: window (R + 1) S := by
  unfold window
  have h1 : S - R = (S - (R + 1)) + 1 := by omega
  rw [h1, List.range_succ_eq_map, List.map_cons, List.map_map]
  refine congrArg₂ List.cons (by simp) ?_
  refine List.map_congr_left ?_
  intro k _
  simp only [Function.comp]
  refine congrArg finMod ?_
  omega

theorem mem_window {R S k : Nat} (h1 : R ≤ k) (h2 : k < S) :
    finMod k ∈ window R S := by
  unfold window
  refine List.mem_map.mpr ⟨k - R, ?_, ?_⟩
  · simp only [List.mem_range]
    omega
  · refine congrArg finMod ?_
    omega

theorem finMod_ne_of_small {k m : Nat} (h1 : 1 ≤ m) (h2 : m < BUFFER_SIZE) :
    finMod (k + m) ≠ finMod k := by
  intro h
  have hv := congrArg Fin.val h
  simp only [finMod, BUFFER_SIZE] at hv
  simp only [BUFFER_SIZE] at h2
  omega

theorem finMod_add_size (k : Nat) : finMod (k + BUFFER_SIZE) = finMod k := by
  refine Fin.ext ?_
  simp only [finMod]
  exact Nat.add_mod_right k BUFFER_SIZE

theorem head_not_mem_tail {R S : Nat} (h : S - R ≤ BUFFER_SIZE) :
    finMod R ∉ window (R + 1) S := by
  intro hmem
  obtain ⟨m, hm, hf⟩ := List.mem_map.mp hmem
  simp only [List.mem_range] at hm
  have h1 : R + 1 + m = R + (m + 1) := by omega
  rw [h1] at hf
  exact finMod_ne_of_small (by omega)
    (by simp only [BUFFER_SIZE]; simp only [BUFFER_SIZE] at h; omega) hf

/-- The inductive invariant of the interleaved pipeline, with
`R = received.length` and `S = submitted.length`:
the submission counter equals `S`; at most `BUFFER_SIZE` submissions are in
flight; the ordering channel holds exactly the indices of submissions
`R … S-1` in FIFO order; a slot is SUBMITTED precisely while its index is
queued, FREE otherwise; each queued slot still holds the content of the
submission that wrote it; no slot is flagged end-of-stream; and the
received history is exactly the first `R` submitted contents. -/
structure PipeInv (s : PipelineSys) : Prop where
  head_eq : s.enc.shared.head = s.submitted.length
  rec_le : s.received.length ≤ s.submitted.length
  depth_le : s.submitted.length - s.received.length ≤ BUFFER_SIZE
  chan_eq : s.enc.shared.channel = window s.received.length s.submitted.length
  state_eq : ∀ i : Fin BUFFER_SIZE,
      (s.enc.shared.slots i).state =
        (if i ∈ s.enc.shared.channel then SlotState.submitted else SlotState.free)
  content_eq : ∀ k : Nat, s.received.length ≤ k → k < s.submitted.length →
      (s.enc.shared.slots (finMod k)).content = s.submitted.getD k 0
  eos_false : ∀ i : Fin BUFFER_SIZE, (s.enc.shared.slots i).endOfStream = false
  rec_take : s.received = s.submitted.take s.received.length

theorem pipeInv_init (pp : NV_ENC_PIC_PARAMS) : PipeInv (initSys pp) := by
  constructor <;> simp [initSys, initShared, window_self]

/-! ## Characterizing the pipeline steps -/

theorem acquire_some_imp {sh : NvidiaEncoderShared} {i : Fin BUFFER_SIZE}
    (h : acquireSlotForWrite sh = some i) :
    i = finMod sh.head ∧ (sh.slots (finMod sh.head)).state = SlotState.free := by
  by_cases hf : (sh.slots (finMod sh.head)).state = SlotState.free
  · simp only [acquireSlotForWrite, hf, if_pos] at h
    exact ⟨(Option.some.inj h).symm, hf⟩
  · simp [acquireSlotForWrite, hf] at h

theorem acquire_of_free {sh : NvidiaEncoderShared}
    (h : (sh.slots (finMod sh.head)).state = SlotState.free) :
    acquireSlotForWrite sh = some (finMod sh.head) := by
  simp [acquireSlotForWrite, h]

theorem acquire_of_not_free {sh : NvidiaEncoderShared}
    (h : ¬(sh.slots (finMod sh.head)).state = SlotState.free) :
    acquireSlotForWrite sh = none := by
  simp [acquireSlotForWrite, h]

/-- The all-successful `encode_frame` call, written out: texture copied
into the round-robin slot, input mapped, pointers bound, slot submitted
and published, flags reset. -/
theorem encodeFrame_allOk_eq (st : EncoderInputState) (t ts : Nat)
    (h : (st.shared.slots (finMod st.shared.head)).state = SlotState.free) :
    encodeFrame st t ts extAllOk =
      .ok
        { st.encodePicParams with
            inputBuffer := some 1,
            outputBitstream := some (st.shared.slots (finMod st.shared.head)).outputBuffer,
            completionEvent := some (st.shared.slots (finMod st.shared.head)).eventPtr,
            inputTimeStamp := ts }
        (finMod st.shared.head)
        { shared :=
            { slots := Function.update st.shared.slots (finMod st.shared.head)
                { st.shared.slots (finMod st.shared.head) with
                    content := t, mappedInput := some 1, eventSet := false,
                    state := SlotState.submitted },
              head := st.shared.head + 1,
              channel := st.shared.channel ++ [finMod st.shared.head] },
          encodePicParams :=
            { st.encodePicParams with
                inputBuffer := some 1,
                outputBitstream := some (st.shared.slots (finMod st.shared.head)).outputBuffer,
                completionEvent := some (st.shared.slots (finMod st.shared.head)).eventPtr,
                inputTimeStamp := ts,
                encodePicFlags := 0 } } := by
  simp only [encodeFrame, acquire_of_free h, extAllOk, publish]
  simp [Function.update_idem]

theorem pipelineStep_submit_some (s : PipelineSys) (t ts : Nat)
    (h : (s.enc.shared.slots (finMod s.enc.shared.head)).state = SlotState.free) :
    pipelineStep s (.submit t ts) = some
      { enc :=
        { shared :=
            { slots := Function.update s.enc.shared.slots (finMod s.enc.shared.head)
                { s.enc.shared.slots (finMod s.enc.shared.head) with
                    content := t, mappedInput := some 1, eventSet := false,
                    state := SlotState.submitted },
              head := s.enc.shared.head + 1,
              channel := s.enc.shared.channel ++ [finMod s.enc.shared.head] },
          encodePicParams :=
            { s.enc.encodePicParams with
                inputBuffer := some 1,
                outputBitstream := some (s.enc.shared.slots (finMod s.enc.shared.head)).outputBuffer,
                completionEvent := some (s.enc.shared.slots (finMod s.enc.shared.head)).eventPtr,
                inputTimeStamp := ts,
                encodePicFlags := 0 } },
        submitted := s.submitted ++ [t], received := s.received } := by
  simp [pipelineStep, encodeFrame_allOk_eq s.enc t ts h]

theorem pipelineStep_submit_none (s : PipelineSys) (t ts : Nat)
    (h : ¬(s.enc.shared.slots (finMod s.enc.shared.head)).state = SlotState.free) :
    pipelineStep s (.submit t ts) = none := by
  simp [pipelineStep, encodeFrame, acquire_of_not_free h]

/-- The all-successful `wait_for_output` call on a non-end-of-stream front
slot, written out: the index is popped, the completion signal consumed,
the slot's content delivered to `consume_output`, the slot released to
FREE, each external call made exactly once. -/
theorem waitForOutput_allOk_eq (sh : NvidiaEncoderShared) (i : Fin BUFFER_SIZE)
    (rest : List (Fin BUFFER_SIZE)) (hch : sh.channel = i :: rest)
    (heos : (sh.slots i).endOfStream = false) :
    waitForOutput sh IndefiniteWaitOutcome.signaled outExtAllOk =
      .ok (sh.slots i).content
        { sh with
          channel := rest,
          slots := Function.update sh.slots i
            { sh.slots i with eventSet := false, state := SlotState.free } }
        { lockCalls := 1, consumeCalls := 1, unlockCalls := 1, unmapCalls := 1 } := by
  simp only [waitForOutput, hch, eventObjWait, outExtAllOk]
  simp [heos, Function.update_idem]

theorem pipelineStep_recv_some (s : PipelineSys) (i : Fin BUFFER_SIZE)
    (rest : List (Fin BUFFER_SIZE)) (hch : s.enc.shared.channel = i :: rest)
    (hev : (s.enc.shared.slots i).eventSet = true)
    (heos : (s.enc.shared.slots i).endOfStream = false) :
    pipelineStep s .recv = some
      { enc := { s.enc with shared :=
          { s.enc.shared with
            channel := rest,
            slots := Function.update s.enc.shared.slots i
              { s.enc.shared.slots i with
                eventSet := false,
                state := SlotState.free } } },
        submitted := s.submitted,
        received := s.received ++ [(s.enc.shared.slots i).content] } := by
  simp [pipelineStep, hch, hev, waitForOutput_allOk_eq s.enc.shared i rest hch heos]

/-! ## Invariant preservation -/

theorem pipeInv_submit {s s' : PipelineSys} {t ts : Nat}
    (hinv : PipeInv s) (hstep : pipelineStep s (.submit t ts) = some s') :
    PipeInv s' := by
  by_cases hfree : (s.enc.shared.slots (finMod s.enc.shared.head)).state = SlotState.free
  case neg =>
    rw [pipelineStep_submit_none s t ts hfree] at hstep
    cases hstep
  case pos =>
    rw [pipelineStep_submit_some s t ts hfree] at hstep
    obtain rfl := Option.some.inj hstep
    have hhead : s.enc.shared.head = s.submitted.length := hinv.head_eq
    have hnotmem : finMod s.submitted.length ∉ s.enc.shared.channel := by
      intro hmem
      have hs := hinv.state_eq (finMod s.submitted.length)
      rw [if_pos hmem] at hs
      rw [hhead, hs] at hfree
      exact absurd hfree (by simp)
    have hdepth : s.submitted.length - s.received.length < BUFFER_SIZE := by
      by_contra hge
      push_neg at hge
      have h8 : s.submitted.length = s.received.length + BUFFER_SIZE := by
        have h1 := hinv.depth_le
        have h2 := hinv.rec_le
        omega
      have hrs : s.received.length < s.submitted.length := by
        rw [h8]
        simp [BUFFER_SIZE]
      have hmem : finMod s.received.length ∈ s.enc.shared.channel := by
        rw [hinv.chan_eq]
        exact mem_window (le_refl _) hrs
      have heq : finMod s.submitted.length = finMod s.received.length := by
        rw [h8, finMod_add_size]
      exact hnotmem (heq ▸ hmem)
    constructor <;> dsimp only
    case head_eq => simp [hhead]
    case rec_le =>
      have := hinv.rec_le
      simp
      omega
    case depth_le =>
      simp
      omega
    case chan_eq =>
      simp only [List.length_append, List.length_singleton]
      rw [window_succ hinv.rec_le, hinv.chan_eq, hhead]
    case state_eq =>
      intro j
      rcases eq_or_ne j (finMod s.enc.shared.head) with rfl | hne
      · simp [Function.update_same]
      · rw [Function.update_noteq hne]
        simp only [List.mem_append, List.mem_singleton, hne, or_false]
        exact hinv.state_eq j
    case content_eq =>
      intro k hk1 hk2
      simp only [List.length_append, List.length_singleton] at hk2
      rcases Nat.lt_or_ge k s.submitted.length with hklt | hkge
      · have hne : finMod k ≠ finMod s.enc.shared.head := by
          rw [hhead]
          intro heq
          exact hnotmem (heq ▸ (hinv.chan_eq ▸ mem_window hk1 hklt))
        rw [Function.update_noteq hne, List.getD_append _ _ _ _ hklt]
        exact hinv.content_eq k hk1 hklt
      · have hk : k = s.submitted.length := by omega
        subst hk
        rw [hhead, Function.update_same]
        rw [List.getD_append_right _ _ _ _ (le_refl _)]
        simp
    case eos_false =>
      intro j
      rcases eq_or_ne j (finMod s.enc.shared.head) with rfl | hne
      · rw [Function.update_same]
        exact hinv.eos_false _
      · rw [Function.update_noteq hne]
        exact hinv.eos_false j
    case rec_take =>
      rw [List.take_append_eq_append_take]
      have h0 : s.received.length - s.submitted.length = 0 := by
        have := hinv.rec_le
        omega
      rw [h0]
      simp only [List.take_zero, List.append_nil]
      exact hinv.rec_take

theorem pipeInv_signal {s s' : PipelineSys} {i : Fin BUFFER_SIZE}
    (hinv : PipeInv s) (hstep : pipelineStep s (.signal i) = some s') :
    PipeInv s' := by
  simp only [pipelineStep] at hstep
  obtain rfl := Option.some.inj hstep
  constructor <;> dsimp only
  case head_eq => exact hinv.head_eq
  case rec_le => exact hinv.rec_le
  case depth_le => exact hinv.depth_le
  case chan_eq => exact hinv.chan_eq
  case state_eq =>
    intro j
    rcases eq_or_ne j i with rfl | hne
    · rw [Function.update_same]
      exact hinv.state_eq j
    · rw [Function.update_noteq hne]
      exact hinv.state_eq j
  case content_eq =>
    intro k hk1 hk2
    rcases eq_or_ne (finMod k) i with heq | hne
    · rw [heq, Function.update_same]
      rw [← heq]
      exact hinv.content_eq k hk1 hk2
    · rw [Function.update_noteq hne]
      exact hinv.content_eq k hk1 hk2
  case eos_false =>
    intro j
    rcases eq_or_ne j i with rfl | hne
    · rw [Function.update_same]
      exact hinv.eos_false j
    · rw [Function.update_noteq hne]
      exact hinv.eos_false j
  case rec_take => exact hinv.rec_take

theorem pipeInv_recv {s s' : PipelineSys}
    (hinv : PipeInv s) (hstep : pipelineStep s .recv = some s') :
    PipeInv s' := by
  rcases hch : s.enc.shared.channel with _ | ⟨i, rest⟩
  · rw [show pipelineStep s .recv = none from by simp [pipelineStep, hch]] at hstep
    cases hstep
  · have heos : (s.enc.shared.slots i).endOfStream = false := hinv.eos_false i
    cases hev : (s.enc.shared.slots i).eventSet with
    | false =>
      rw [show pipelineStep s .recv = none from by simp [pipelineStep, hch, hev]] at hstep
      cases hstep
    | true =>
      rw [pipelineStep_recv_some s i rest hch hev heos] at hstep
      obtain rfl := Option.some.inj hstep
      have hRS : s.received.length < s.submitted.length := by
        have hlen := congrArg List.length hinv.chan_eq
        rw [hch] at hlen
        simp only [List.length_cons, window_length] at hlen
        omega
      have hdecomp := hinv.chan_eq
      rw [hch, window_cons hRS] at hdecomp
      have hi : i = finMod s.received.length := (List.cons.injEq _ _ _ _ ▸ hdecomp).1
      have hrest : rest = window (s.received.length + 1) s.submitted.length :=
        (List.cons.injEq _ _ _ _ ▸ hdecomp).2
      constructor <;> dsimp only
      case head_eq => exact hinv.head_eq
      case rec_le =>
        simp
        omega
      case depth_le =>
        have := hinv.depth_le
        simp
        omega
      case chan_eq =>
        simp only [List.length_append, List.length_singleton]
        exact hrest
      case state_eq =>
        intro j
        rcases eq_or_ne j i with rfl | hne
        · rw [Function.update_same]
          have hnm : j ∉ rest := by
            rw [hi, hrest]
            exact head_not_mem_tail hinv.depth_le
          simp [hnm]
        · rw [Function.update_noteq hne]
          have hs := hinv.state_eq j
          rw [hch] at hs
          simp only [List.mem_cons, hne, false_or] at hs
          exact hs
      case content_eq =>
        intro k hk1 hk2
        simp only [List.length_append, List.length_singleton] at hk1
        have hne : finMod k ≠ i := by
          rw [hi]
          have hk : k = s.received.length + (k - s.received.length) := by omega
          rw [hk]
          refine finMod_ne_of_small (by omega) ?_
          have := hinv.depth_le
          simp only [BUFFER_SIZE] at this ⊢
          omega
        rw [Function.update_noteq hne]
        exact hinv.content_eq k (by omega) hk2
      case eos_false =>
        intro j
        rcases eq_or_ne j i with rfl | hne
        · rw [Function.update_same]
          exact hinv.eos_false j
        · rw [Function.update_noteq hne]
          exact hinv.eos_false j
      case rec_take =>
        have hc : (s.enc.shared.slots i).content = s.submitted.getD s.received.length 0 := by
          rw [hi]
          exact hinv.content_eq s.received.length (le_refl _) hRS
        have hgl : (s.enc.shared.slots i).content = s.submitted[s.received.length] := by
          rw [hc]
          exact List.getD_eq_getElem s.submitted 0 hRS
        simp only [List.length_append, List.length_singleton]
        rw [List.take_succ, List.getElem?_eq_getElem hRS]
        simp only [Option.toList_some]
        exact congrArg₂ (fun l x => l ++ [x]) hinv.rec_take hgl

theorem pipeInv_step {s s' : PipelineSys} {a : EncoderAct}
    (hinv : PipeInv s) (hstep : pipelineStep s a = some s') : PipeInv s' := by
  cases a with
  | submit t ts => exact pipeInv_submit hinv hstep
  | signal i => exact pipeInv_signal hinv hstep
  | recv => exact pipeInv_recv hinv hstep

theorem pipeInv_run {acts : List EncoderAct} :
    ∀ {s s' : PipelineSys}, PipeInv s → runPipeline s acts = some s' → PipeInv s' := by
  induction acts with
  | nil =>
    intro s s' hinv hrun
    simp only [runPipeline] at hrun
    exact (Option.some.inj hrun) ▸ hinv
  | cons a rest ih =>
    intro s s' hinv hrun
    simp only [runPipeline] at hrun
    rcases hstep : pipelineStep s a with _ | s1
    · rw [hstep] at hrun
      cases hrun
    · rw [hstep] at hrun
      exact ih (pipeInv_step hinv hstep) hrun

/-! ## Claim theorems: ordering, capacity, round-robin -/

theorem pipelineStep_recv_inv {s s' : PipelineSys}
    (h : pipelineStep s .recv = some s') :
    s'.submitted = s.submitted ∧ s'.received.length = s.received.length + 1 := by
  rcases hch : s.enc.shared.channel with _ | ⟨i, rest⟩
  · rw [show pipelineStep s .recv = none from by simp [pipelineStep, hch]] at h
    cases h
  · cases hev : (s.enc.shared.slots i).eventSet with
    | false =>
      rw [show pipelineStep s .recv = none from by simp [pipelineStep, hch, hev]] at h
      cases h
    | true =>
      simp only [pipelineStep, hch, hev, if_true] at h
      rcases hout : waitForOutput s.enc.shared IndefiniteWaitOutcome.signaled outExtAllOk
        with _ | ⟨e, sh, c⟩ | ⟨v, sh, c⟩
      · rw [hout] at h
        cases h
      · rw [hout] at h
        cases h
      · rw [hout] at h
        obtain rfl := Option.some.inj h
        constructor <;> simp

/-- C1: for every sequence of frames submitted through the producer
(`EncoderInput::encode_frame`), the consumer (`EncoderOutput::wait_for_output`)
delivers their results in exactly the submission order, for every
interleaving of the per-slot completion signals (`signal` actions may set
the slots' events in any order): at any reachable state the delivered
history is exactly a prefix of the submitted history, because the consumer
always waits on the specific slot named by the next index dequeued from the
FIFO ordering channel. -/
theorem c1_output_order_equals_submission_order :
    ∀ (pp : NV_ENC_PIC_PARAMS) (acts : List EncoderAct) (s : PipelineSys),
      runPipeline (initSys pp) acts = some s →
      s.received = s.submitted.take s.received.length ∧
      ∃ rest, s.submitted = s.received ++ rest := by
  intro pp acts s hrun
  have hinv := pipeInv_run (pipeInv_init pp) hrun
  refine ⟨hinv.rec_take, s.submitted.drop s.received.length, ?_⟩
  conv_lhs => rw [← List.take_append_drop s.received.length s.submitted]
  rw [← hinv.rec_take]

/-- C2: the ring's capacity is fixed at construction to `BUFFER_SIZE = 8`;
in every reachable state the number of in-flight (published, unconsumed)
indices never exceeds it; when it is reached, a further `submit` blocks
(the step is not enabled, no state is dropped or overwritten), and after
one successful `recv` the producer is unblocked. -/
theorem c2_capacity_bound_and_backpressure :
    BUFFER_SIZE = 8 ∧
    ∀ (pp : NV_ENC_PIC_PARAMS) (acts : List EncoderAct) (s : PipelineSys),
      runPipeline (initSys pp) acts = some s →
      s.enc.shared.channel.length ≤ BUFFER_SIZE ∧
      (s.enc.shared.channel.length = BUFFER_SIZE →
        (∀ t ts, pipelineStep s (.submit t ts) = none) ∧
        (∀ s', pipelineStep s .recv = some s' →
          ∀ t ts, pipelineStep s' (.submit t ts) ≠ none)) := by
  refine ⟨rfl, ?_⟩
  intro pp acts s hrun
  have hinv := pipeInv_run (pipeInv_init pp) hrun
  have hlen : s.enc.shared.channel.length =
      s.submitted.length - s.received.length := by
    rw [hinv.chan_eq, window_length]
  constructor
  · rw [hlen]
    exact hinv.depth_le
  · intro hfull
    have hSR : s.submitted.length = s.received.length + BUFFER_SIZE := by
      rw [hlen] at hfull
      have := hinv.rec_le
      omega
    have hRS : s.received.length < s.submitted.length := by
      rw [hSR]
      simp only [BUFFER_SIZE]
      omega
    constructor
    · intro t ts
      apply pipelineStep_submit_none
      have hmod : finMod s.enc.shared.head = finMod s.received.length := by
        rw [hinv.head_eq, hSR, finMod_add_size]
      have hmem : finMod s.enc.shared.head ∈ s.enc.shared.channel := by
        rw [hinv.chan_eq, hmod]
        exact mem_window (le_refl _) hRS
      have hs := hinv.state_eq (finMod s.enc.shared.head)
      rw [if_pos hmem] at hs
      rw [hs]
      simp
    · intro s' hrecv t ts
      have hinv' := pipeInv_recv hinv hrecv
      obtain ⟨hsub', hrecl'⟩ := pipelineStep_recv_inv hrecv
      have hS' : s'.submitted.length = s.received.length + BUFFER_SIZE := by
        rw [hsub']
        exact hSR
      have hfree' : (s'.enc.shared.slots (finMod s'.enc.shared.head)).state =
          SlotState.free := by
        have hnm : finMod s'.enc.shared.head ∉ s'.enc.shared.channel := by
          rw [hinv'.chan_eq, hinv'.head_eq, hrecl']
          have hmod : finMod s'.submitted.length = finMod s.received.length := by
            rw [hS', finMod_add_size]
          rw [hmod]
          exact head_not_mem_tail (by rw [hS']; omega)
        have hs := hinv'.state_eq (finMod s'.enc.shared.head)
        rw [if_neg hnm] at hs
        exact hs
      intro hnone
      rw [pipelineStep_submit_some s' t ts hfree'] at hnone
      cases hnone

/-- C7: slot selection for writing is strict round-robin: whenever a
`submit` step fires, the producer acquires exactly slot
`submission_count mod BUFFER_SIZE`, where the submission counter equals the
number of prior successful acquisitions; the acquired slot is FREE, and its
previous occupant (submission `count - BUFFER_SIZE`, when one exists) has
already been consumed and released. -/
theorem c7_round_robin_write_selection :
    ∀ (pp : NV_ENC_PIC_PARAMS) (acts : List EncoderAct) (s : PipelineSys),
      runPipeline (initSys pp) acts = some s →
      ∀ t ts s', pipelineStep s (.submit t ts) = some s' →
        acquireSlotForWrite s.enc.shared = some (finMod s.submitted.length) ∧
        s.enc.shared.head = s.submitted.length ∧
        (s.enc.shared.slots (finMod s.submitted.length)).state = SlotState.free ∧
        (BUFFER_SIZE ≤ s.submitted.length →
          s.submitted.length - BUFFER_SIZE < s.received.length) := by
  intro pp acts s hrun t ts s' hstep
  have hinv := pipeInv_run (pipeInv_init pp) hrun
  by_cases hfree : (s.enc.shared.slots (finMod s.enc.shared.head)).state = SlotState.free
  case neg =>
    rw [pipelineStep_submit_none s t ts hfree] at hstep
    cases hstep
  case pos =>
    have hhead := hinv.head_eq
    refine ⟨?_, hhead, by rw [← hhead]; exact hfree, ?_⟩
    · rw [acquire_of_free hfree, hhead]
    · intro hge
      by_contra hlt
      push_neg at hlt
      have hk2 : s.submitted.length - BUFFER_SIZE < s.submitted.length := by
        simp only [BUFFER_SIZE] at hge ⊢
        omega
      have hmem : finMod (s.submitted.length - BUFFER_SIZE) ∈ s.enc.shared.channel := by
        rw [hinv.chan_eq]
        exact mem_window hlt hk2
      have heq : finMod (s.submitted.length - BUFFER_SIZE) = finMod s.submitted.length := by
        have hsum : s.submitted.length - BUFFER_SIZE + BUFFER_SIZE = s.submitted.length := by
          omega
        conv_rhs => rw [← hsum]
        rw [finMod_add_size]
      have hs := hinv.state_eq (finMod s.submitted.length)
      rw [if_pos (heq ▸ hmem)] at hs
      rw [hhead, hs] at hfree
      exact absurd hfree (by simp)

/-! ## Per-call claims -/

/-- A concrete zeroed `NV_ENC_PIC_PARAMS` used in witnesses. -/
def ppZero : NV_ENC_PIC_PARAMS :=
  { version := 0, inputWidth := 0, inputHeight := 0, inputPitch := 0,
    bufferFmt := 0, pictureStruct := 0, inputBuffer := none,
    outputBitstream := none, completionEvent := none, inputTimeStamp := 0,
    encodePicFlags := 0, otherFields := 0 }

/-- `encode_frame` when mapping and submission both succeed, with an
arbitrary mapped pointer `p`. -/
theorem encodeFrame_ok_eq_general (st : EncoderInputState) (t ts p : Nat)
    (h : (st.shared.slots (finMod st.shared.head)).state = SlotState.free) :
    encodeFrame st t ts { mapResult := none, mappedPtr := p, encodeResult := none } =
      .ok
        { st.encodePicParams with
            inputBuffer := some p,
            outputBitstream := some (st.shared.slots (finMod st.shared.head)).outputBuffer,
            completionEvent := some (st.shared.slots (finMod st.shared.head)).eventPtr,
            inputTimeStamp := ts }
        (finMod st.shared.head)
        { shared :=
            { slots := Function.update st.shared.slots (finMod st.shared.head)
                { st.shared.slots (finMod st.shared.head) with
                    content := t, mappedInput := some p, eventSet := false,
                    state := SlotState.submitted },
              head := st.shared.head + 1,
              channel := st.shared.channel ++ [finMod st.shared.head] },
          encodePicParams :=
            { st.encodePicParams with
                inputBuffer := some p,
                outputBitstream := some (st.shared.slots (finMod st.shared.head)).outputBuffer,
                completionEvent := some (st.shared.slots (finMod st.shared.head)).eventPtr,
                inputTimeStamp := ts,
                encodePicFlags := 0 } } := by
  simp only [encodeFrame, acquire_of_free h, publish]
  simp [Function.update_idem]

/-- `encode_frame` when mapping succeeds but the external `encode_picture`
call fails: the error propagates through `?`, the slot stays FREE, nothing
is published, the submission counter does not advance, and the pending
picture flags are not reset. -/
theorem encodeFrame_encode_failure_eq (st : EncoderInputState) (t ts p : Nat)
    (e : NvEncError)
    (h : (st.shared.slots (finMod st.shared.head)).state = SlotState.free) :
    encodeFrame st t ts { mapResult := none, mappedPtr := p, encodeResult := some e } =
      .failed e
        { shared :=
            { st.shared with
              slots := Function.update st.shared.slots (finMod st.shared.head)
                { st.shared.slots (finMod st.shared.head) with
                    content := t, mappedInput := some p, eventSet := false } },
          encodePicParams :=
            { st.encodePicParams with
                inputBuffer := some p,
                outputBitstream := some (st.shared.slots (finMod st.shared.head)).outputBuffer,
                completionEvent := some (st.shared.slots (finMod st.shared.head)).eventPtr,
                inputTimeStamp := ts } } := by
  simp only [encodeFrame, acquire_of_free h]

/-- C3: when the external submission call (`encode_picture`) fails during
`EncoderInput::encode_frame`, the acquired slot is back in FREE (every
slot's lifecycle state is exactly what it was), the error is surfaced to
the caller, and no slot index is published: the ordering channel and the
submission counter are unchanged, so the ring's bookkeeping is as if the
submission had not been attempted.  (Ring operations are modelled from the
spec, `shared.rs` being absent from the sources.) -/
theorem c3_encode_failure_rolls_back :
    ∀ (st : EncoderInputState) (t ts p : Nat) (e : NvEncError) (i : Fin BUFFER_SIZE),
      acquireSlotForWrite st.shared = some i →
      ∃ st',
        encodeFrame st t ts { mapResult := none, mappedPtr := p, encodeResult := some e } =
          .failed e st' ∧
        st'.shared.channel = st.shared.channel ∧
        st'.shared.head = st.shared.head ∧
        (∀ j, (st'.shared.slots j).state = (st.shared.slots j).state) := by
  intro st t ts p e i hacq
  obtain ⟨rfl, hfree⟩ := acquire_some_imp hacq
  refine ⟨_, encodeFrame_encode_failure_eq st t ts p e hfree, rfl, rfl, ?_⟩
  intro j
  dsimp only
  rcases eq_or_ne j (finMod st.shared.head) with rfl | hne
  · rw [Function.update_same]
  · rw [Function.update_noteq hne]

/-- Witness for C3 at the freshly built ring: submitting with a failing
`encode_picture` call surfaces `NV_ENC_ERR_ENCODER_BUSY` and leaves the
channel empty and the counter at zero. -/
theorem c3_encode_failure_rolls_back_witness :
    acquireSlotForWrite initShared = some (finMod 0) ∧
    (∃ st',
      encodeFrame { shared := initShared, encodePicParams := ppZero } 3 4
          { mapResult := none, mappedPtr := 7,
            encodeResult := some (NvEncError.Sys NonZeroNvencStatus.NV_ENC_ERR_ENCODER_BUSY) } =
        .failed (NvEncError.Sys NonZeroNvencStatus.NV_ENC_ERR_ENCODER_BUSY) st' ∧
      st'.shared.channel = initShared.channel ∧
      st'.shared.head = initShared.head ∧
      (∀ j, (st'.shared.slots j).state = (initShared.slots j).state)) := by
  refine ⟨rfl, ?_⟩
  exact c3_encode_failure_rolls_back { shared := initShared, encodePicParams := ppZero }
    3 4 7 (NvEncError.Sys NonZeroNvencStatus.NV_ENC_ERR_ENCODER_BUSY) (finMod 0) rfl

/-- C5: when the front slot is flagged end-of-stream, `wait_for_output`
fails with the distinguished `EndOfStream` error before any external call:
no lock-bitstream, no `consume_output`, no unlock-bitstream, no
unmap-input.  The index is popped from the channel, so the terminal
submission yields `EndOfStream` exactly once. -/
theorem c5_end_of_stream_no_lock :
    ∀ (s : NvidiaEncoderShared) (i : Fin BUFFER_SIZE) (rest : List (Fin BUFFER_SIZE))
      (ext : OutputExternals),
      s.channel = i :: rest →
      (s.slots i).endOfStream = true →
      waitForOutput s IndefiniteWaitOutcome.signaled ext =
        .failed NvEncError.EndOfStream
          { s with
            channel := rest,
            slots := Function.update s.slots i { s.slots i with eventSet := false } }
          { lockCalls := 0, consumeCalls := 0, unlockCalls := 0, unmapCalls := 0 } := by
  intro s i rest ext hch heos
  simp [waitForOutput, hch, eventObjWait, heos]

/-- An in-flight ring whose single queued slot is flagged end-of-stream. -/
def c5Shared : NvidiaEncoderShared :=
  { slots := Function.update initShared.slots (finMod 0)
      { initShared.slots (finMod 0) with
          state := SlotState.submitted, eventSet := true, endOfStream := true },
    head := 1, channel := [finMod 0] }

/-- Witness for C5 on a concrete end-of-stream slot. -/
theorem c5_end_of_stream_no_lock_witness :
    c5Shared.channel = finMod 0 :: [] ∧
    (c5Shared.slots (finMod 0)).endOfStream = true ∧
    waitForOutput c5Shared IndefiniteWaitOutcome.signaled outExtAllOk =
      .failed NvEncError.EndOfStream
        { c5Shared with
          channel := [],
          slots := Function.update c5Shared.slots (finMod 0)
            { c5Shared.slots (finMod 0) with eventSet := false } }
        { lockCalls := 0, consumeCalls := 0, unlockCalls := 0, unmapCalls := 0 } := by
  refine ⟨rfl, rfl, ?_⟩
  exact c5_end_of_stream_no_lock c5Shared (finMod 0) [] outExtAllOk rfl rfl

/-- C6: dropping the producer handle (`impl Drop for EncoderInput`) makes
exactly one `end_encode` call; when the external submission succeeds, the
slot it acquired is flagged end-of-stream, the submitted picture parameters
carry null input and output pointers and the EOS picture flag (with the
slot's completion event attached), and the slot index is published to the
ordering channel so the consumer observes the terminal signal.  (Ring
operations modelled from the spec, `shared.rs` being absent.) -/
theorem c6_drop_issues_single_eos_submission :
    ∀ (st : EncoderInputState) (i : Fin BUFFER_SIZE),
      acquireSlotForWrite st.shared = some i →
      ∃ pp st',
        dropEncoderInput st none = .ok pp i st' ∧
        pp.inputBuffer = none ∧
        pp.outputBitstream = none ∧
        pp.encodePicFlags = NV_ENC_PIC_FLAG_EOS ∧
        pp.completionEvent = some (st.shared.slots i).eventPtr ∧
        (st'.shared.slots i).endOfStream = true ∧
        st'.shared.channel = st.shared.channel ++ [i] := by
  intro st i hacq
  obtain ⟨rfl, hfree⟩ := acquire_some_imp hacq
  refine ⟨{ st.encodePicParams with
              inputBuffer := none, outputBitstream := none,
              completionEvent := some (st.shared.slots (finMod st.shared.head)).eventPtr,
              encodePicFlags := NV_ENC_PIC_FLAG_EOS },
          { shared :=
              { slots := Function.update st.shared.slots (finMod st.shared.head)
                  { st.shared.slots (finMod st.shared.head) with
                      endOfStream := true, eventSet := false,
                      state := SlotState.submitted },
                head := st.shared.head + 1,
                channel := st.shared.channel ++ [finMod st.shared.head] },
            encodePicParams :=
              { st.encodePicParams with
                  inputBuffer := none, outputBitstream := none,
                  completionEvent := some (st.shared.slots (finMod st.shared.head)).eventPtr,
                  encodePicFlags := NV_ENC_PIC_FLAG_EOS } },
          ?_, rfl, rfl, rfl, rfl, ?_, rfl⟩
  · simp only [dropEncoderInput, endEncode, acquire_of_free hfree, publish]
    simp [Function.update_idem]
  · simp [Function.update_same]

/-- Witness for C6 on a freshly built ring with zeroed parameters. -/
theorem c6_drop_issues_single_eos_submission_witness :
    acquireSlotForWrite initShared = some (finMod 0) ∧
    (∃ pp st',
      dropEncoderInput { shared := initShared, encodePicParams := ppZero } none =
        .ok pp (finMod 0) st' ∧
      pp.inputBuffer = none ∧
      pp.outputBitstream = none ∧
      pp.encodePicFlags = NV_ENC_PIC_FLAG_EOS ∧
      pp.completionEvent = some (initShared.slots (finMod 0)).eventPtr ∧
      (st'.shared.slots (finMod 0)).endOfStream = true ∧
      st'.shared.channel = initShared.channel ++ [finMod 0]) := by
  refine ⟨rfl, ?_⟩
  exact c6_drop_issues_single_eos_submission
    { shared := initShared, encodePicParams := ppZero } (finMod 0) rfl

/-- An in-flight ring with one submitted, signaled, non-end-of-stream slot. -/
def c4Shared : NvidiaEncoderShared :=
  { slots := Function.update initShared.slots (finMod 0)
      { initShared.slots (finMod 0) with
          state := SlotState.submitted, eventSet := true,
          content := 42, mappedInput := some 5 },
    head := 1, channel := [finMod 0] }

/-- The external outcomes for a failing `lock_bitstream` call. -/
def lockBusyExt : OutputExternals :=
  { lockResult := some (NvEncError.Sys NonZeroNvencStatus.NV_ENC_ERR_LOCK_BUSY),
    unlockResult := none, unmapResult := none }

/-- C4 is refuted on the source of `wait_for_output`
(encoder_output.rs lines 30–39): `lock_bitstream` is followed by `?`, so
when it fails the call returns early and the unlock-output and unmap-input
calls are invoked zero times, not once; the slot also does not return to
FREE.  Concretely, with one submitted signaled slot and a `LOCK_BUSY`
lock failure, the error propagates, `unlockCalls = 0`, `unmapCalls = 0`,
and the slot stays SUBMITTED. -/
theorem c4_lock_failure_skips_unlock_and_unmap :
    (waitForOutput c4Shared IndefiniteWaitOutcome.signaled lockBusyExt).errOf =
      some (NvEncError.Sys NonZeroNvencStatus.NV_ENC_ERR_LOCK_BUSY) ∧
    (waitForOutput c4Shared IndefiniteWaitOutcome.signaled lockBusyExt).callsOf.lockCalls = 1 ∧
    (waitForOutput c4Shared IndefiniteWaitOutcome.signaled lockBusyExt).callsOf.unlockCalls = 0 ∧
    (waitForOutput c4Shared IndefiniteWaitOutcome.signaled lockBusyExt).callsOf.unmapCalls = 0 ∧
    ((waitForOutput c4Shared IndefiniteWaitOutcome.signaled lockBusyExt).sharedOf).map
        (fun sh => (sh.slots (finMod 0)).state) = some SlotState.submitted := by
  refine ⟨rfl, rfl, rfl, rfl, ?_⟩
  decide

/-- C4 (amended): the scoped-release discipline holds only on the success
path.  For every `wait_for_output` call on a signaled, non-end-of-stream
front slot: the caller's `consume_output` closure returns `()` and cannot
fail; when `lock_bitstream` fails, its error is surfaced and neither
unlock-output nor unmap-input is invoked; when `unlock_bitstream` fails,
its error is surfaced, unlock was invoked once and unmap-input is not
invoked; when `unmap_input_resource` fails, its error is surfaced after
unlock and unmap were each invoked once; on each of these error paths the
post ring state is exactly the pre state with the index popped and the
slot's completion signal consumed — in particular the slot's lifecycle
state is unchanged, so it is not released to FREE.  Only when every
external call succeeds are unlock-output and unmap-input each invoked
exactly once with the slot transitioning to FREE. -/
theorem c4_scoped_release_on_success_path_only :
    ∀ (s : NvidiaEncoderShared) (i : Fin BUFFER_SIZE) (rest : List (Fin BUFFER_SIZE)),
      s.channel = i :: rest →
      (s.slots i).endOfStream = false →
      (∀ e u m,
        (waitForOutput s IndefiniteWaitOutcome.signaled
            { lockResult := some e, unlockResult := u, unmapResult := m }).callsOf =
          { lockCalls := 1, consumeCalls := 0, unlockCalls := 0, unmapCalls := 0 } ∧
        (waitForOutput s IndefiniteWaitOutcome.signaled
            { lockResult := some e, unlockResult := u, unmapResult := m }).errOf = some e ∧
        (waitForOutput s IndefiniteWaitOutcome.signaled
            { lockResult := some e, unlockResult := u, unmapResult := m }).sharedOf =
          some { s with
                 channel := rest,
                 slots := Function.update s.slots i
                   { s.slots i with eventSet := false } } ∧
        ((waitForOutput s IndefiniteWaitOutcome.signaled
            { lockResult := some e, unlockResult := u, unmapResult := m }).sharedOf).map
            (fun sh => (sh.slots i).state) = some (s.slots i).state) ∧
      (∀ e m,
        (waitForOutput s IndefiniteWaitOutcome.signaled
            { lockResult := none, unlockResult := some e, unmapResult := m }).callsOf =
          { lockCalls := 1, consumeCalls := 1, unlockCalls := 1, unmapCalls := 0 } ∧
        (waitForOutput s IndefiniteWaitOutcome.signaled
            { lockResult := none, unlockResult := some e, unmapResult := m }).errOf = some e ∧
        (waitForOutput s IndefiniteWaitOutcome.signaled
            { lockResult := none, unlockResult := some e, unmapResult := m }).sharedOf =
          some { s with
                 channel := rest,
                 slots := Function.update s.slots i
                   { s.slots i with eventSet := false } } ∧
        ((waitForOutput s IndefiniteWaitOutcome.signaled
            { lockResult := none, unlockResult := some e, unmapResult := m }).sharedOf).map
            (fun sh => (sh.slots i).state) = some (s.slots i).state) ∧
      (∀ e,
        (waitForOutput s IndefiniteWaitOutcome.signaled
            { lockResult := none, unlockResult := none, unmapResult := some e }).callsOf =
          { lockCalls := 1, consumeCalls := 1, unlockCalls := 1, unmapCalls := 1 } ∧
        (waitForOutput s IndefiniteWaitOutcome.signaled
            { lockResult := none, unlockResult := none, unmapResult := some e }).errOf = some e ∧
        (waitForOutput s IndefiniteWaitOutcome.signaled
            { lockResult := none, unlockResult := none, unmapResult := some e }).sharedOf =
          some { s with
                 channel := rest,
                 slots := Function.update s.slots i
                   { s.slots i with eventSet := false } } ∧
        ((waitForOutput s IndefiniteWaitOutcome.signaled
            { lockResult := none, unlockResult := none, unmapResult := some e }).sharedOf).map
            (fun sh => (sh.slots i).state) = some (s.slots i).state) ∧
      ((waitForOutput s IndefiniteWaitOutcome.signaled outExtAllOk).callsOf =
          { lockCalls := 1, consumeCalls := 1, unlockCalls := 1, unmapCalls := 1 } ∧
        (waitForOutput s IndefiniteWaitOutcome.signaled outExtAllOk).sharedOf =
          some { s with
                 channel := rest,
                 slots := Function.update s.slots i
                   { s.slots i with eventSet := false, state := SlotState.free } }) := by
  intro s i rest hch heos
  refine ⟨?_, ?_, ?_, ?_⟩
  · intro e u m
    refine ⟨?_, ?_, ?_, ?_⟩ <;>
      simp [waitForOutput, hch, eventObjWait, heos, OutputOutcome.callsOf,
        OutputOutcome.errOf, OutputOutcome.sharedOf, Function.update_same]
  · intro e m
    refine ⟨?_, ?_, ?_, ?_⟩ <;>
      simp [waitForOutput, hch, eventObjWait, heos, OutputOutcome.callsOf,
        OutputOutcome.errOf, OutputOutcome.sharedOf, Function.update_same]
  · intro e
    refine ⟨?_, ?_, ?_, ?_⟩ <;>
      simp [waitForOutput, hch, eventObjWait, heos, OutputOutcome.callsOf,
        OutputOutcome.errOf, OutputOutcome.sharedOf, Function.update_same]
  · rw [waitForOutput_allOk_eq s i rest hch heos]
    exact ⟨rfl, rfl⟩

/-- Witness for the amended C4 on a concrete in-flight slot: the success
path makes each external call exactly once; a concrete unlock failure
surfaces with no unmap call and leaves the slot SUBMITTED (not released
to FREE). -/
theorem c4_scoped_release_on_success_path_only_witness :
    c4Shared.channel = finMod 0 :: [] ∧
    (c4Shared.slots (finMod 0)).endOfStream = false ∧
    (waitForOutput c4Shared IndefiniteWaitOutcome.signaled outExtAllOk).callsOf =
      { lockCalls := 1, consumeCalls := 1, unlockCalls := 1, unmapCalls := 1 } ∧
    (waitForOutput c4Shared IndefiniteWaitOutcome.signaled
        { lockResult := none,
          unlockResult := some (NvEncError.Sys NonZeroNvencStatus.NV_ENC_ERR_GENERIC),
          unmapResult := none }).callsOf =
      { lockCalls := 1, consumeCalls := 1, unlockCalls := 1, unmapCalls := 0 } ∧
    ((waitForOutput c4Shared IndefiniteWaitOutcome.signaled
        { lockResult := none,
          unlockResult := some (NvEncError.Sys NonZeroNvencStatus.NV_ENC_ERR_GENERIC),
          unmapResult := none }).sharedOf).map
        (fun sh => (sh.slots (finMod 0)).state) = some SlotState.submitted := by
  refine ⟨rfl, rfl, ?_, ?_, ?_⟩
  · exact ((c4_scoped_release_on_success_path_only c4Shared (finMod 0) [] rfl rfl).2.2.2).1
  · exact ((c4_scoped_release_on_success_path_only c4Shared (finMod 0) [] rfl rfl).2.1
      (NvEncError.Sys NonZeroNvencStatus.NV_ENC_ERR_GENERIC) none).1
  · have h := ((c4_scoped_release_on_success_path_only c4Shared (finMod 0) [] rfl rfl).2.1
      (NvEncError.Sys NonZeroNvencStatus.NV_ENC_ERR_GENERIC) none).2.2.2
    rw [h]
    decide

/-- C8: the consumer's wait on a slot's completion signal is a blocking
wait with no timeout: it either succeeds or surfaces
`EventObjectWaitError`, and it never produces the distinguished
`EventObjectWaitTimeout`; when the wait step fails inside
`wait_for_output`, that error is surfaced to the caller.  The signal
primitive also offers the bounded-timeout wait variant
(event/windows.rs), which maps `WAIT_TIMEOUT` to
`EventObjectWaitTimeout` and `WAIT_OBJECT_0` to success. -/
theorem c8_indefinite_wait_never_times_out :
    (∀ o : IndefiniteWaitOutcome,
      eventObjWait o = none ∨ eventObjWait o = some NvEncError.EventObjectWaitError) ∧
    (∀ o : IndefiniteWaitOutcome,
      ¬eventObjWait o = some NvEncError.EventObjectWaitTimeout) ∧
    (∀ (s : NvidiaEncoderShared) (i : Fin BUFFER_SIZE) (rest : List (Fin BUFFER_SIZE))
      (ext : OutputExternals),
      s.channel = i :: rest →
      (waitForOutput s IndefiniteWaitOutcome.osError ext).errOf =
        some NvEncError.EventObjectWaitError) ∧
    eventObjWaitWithTimeout WaitObjectStatus.WAIT_OBJECT_0 = none ∧
    eventObjWaitWithTimeout WaitObjectStatus.WAIT_TIMEOUT =
      some NvEncError.EventObjectWaitTimeout := by
  refine ⟨?_, ?_, ?_, rfl, rfl⟩
  · intro o
    cases o
    · exact Or.inl rfl
    · exact Or.inr rfl
  · intro o
    cases o <;> simp [eventObjWait]
  · intro s i rest ext hch
    simp [waitForOutput, hch, eventObjWait, OutputOutcome.errOf]

/-- Witness for C8: the signaled wait does not time out, and a failing
wait inside `wait_for_output` on a concrete one-slot channel surfaces
`EventObjectWaitError`. -/
theorem c8_indefinite_wait_never_times_out_witness :
    ¬eventObjWait IndefiniteWaitOutcome.signaled =
        some NvEncError.EventObjectWaitTimeout ∧
    (waitForOutput { initShared with channel := [finMod 0] }
        IndefiniteWaitOutcome.osError outExtAllOk).errOf =
      some NvEncError.EventObjectWaitError := by
  refine ⟨?_, ?_⟩
  · exact c8_indefinite_wait_never_times_out.2.1 IndefiniteWaitOutcome.signaled
  · exact c8_indefinite_wait_never_times_out.2.2.1
      { initShared with channel := [finMod 0] } (finMod 0) [] outExtAllOk rfl

/-- What a successful `encode_frame` does to the stored
`encode_pic_params`: flags reset to zero, the submitted snapshot carries
the pending flags, and every field other than the pointers, the timestamp
and the flags is preserved. -/
theorem encodeFrame_ok_pic_params {st : EncoderInputState} {t ts p : Nat}
    {pp : NV_ENC_PIC_PARAMS} {i : Fin BUFFER_SIZE} {st' : EncoderInputState}
    (h : encodeFrame st t ts { mapResult := none, mappedPtr := p, encodeResult := none } =
      .ok pp i st') :
    st'.encodePicParams.encodePicFlags = 0 ∧
    pp.encodePicFlags = st.encodePicParams.encodePicFlags ∧
    st'.encodePicParams.version = st.encodePicParams.version ∧
    st'.encodePicParams.inputWidth = st.encodePicParams.inputWidth ∧
    st'.encodePicParams.inputHeight = st.encodePicParams.inputHeight ∧
    st'.encodePicParams.inputPitch = st.encodePicParams.inputPitch ∧
    st'.encodePicParams.bufferFmt = st.encodePicParams.bufferFmt ∧
    st'.encodePicParams.pictureStruct = st.encodePicParams.pictureStruct ∧
    st'.encodePicParams.otherFields = st.encodePicParams.otherFields := by
  by_cases hfree : (st.shared.slots (finMod st.shared.head)).state = SlotState.free
  case neg =>
    rw [show encodeFrame st t ts
        { mapResult := none, mappedPtr := p, encodeResult := none } = .blocked from by
      simp [encodeFrame, acquire_of_not_free hfree]] at h
    cases h
  case pos =>
    rw [encodeFrame_ok_eq_general st t ts p hfree] at h
    injection h with hpp hi hst
    subst hpp
    subst hst
    exact ⟨rfl, rfl, rfl, rfl, rfl, rfl, rfl, rfl, rfl⟩

/-- C10: after every `encode_frame` call that returns `Ok`, the pending
picture flags (`encodePicFlags`) are reset to 0; the flags submitted with
the frame are exactly the pending ones, so a preceding
`force_idr_on_next` affects at most the one frame encoded next (any
further successful frame is submitted with flags 0); and every field of
the stored picture parameters other than `inputBuffer`,
`outputBitstream`, `completionEvent`, `inputTimeStamp` and
`encodePicFlags` is unchanged. -/
theorem c10_flags_reset_after_successful_encode :
    ∀ (st : EncoderInputState) (t ts p : Nat) (pp : NV_ENC_PIC_PARAMS)
      (i : Fin BUFFER_SIZE) (st' : EncoderInputState),
      encodeFrame st t ts { mapResult := none, mappedPtr := p, encodeResult := none } =
        .ok pp i st' →
      st'.encodePicParams.encodePicFlags = 0 ∧
      pp.encodePicFlags = st.encodePicParams.encodePicFlags ∧
      st'.encodePicParams.version = st.encodePicParams.version ∧
      st'.encodePicParams.inputWidth = st.encodePicParams.inputWidth ∧
      st'.encodePicParams.inputHeight = st.encodePicParams.inputHeight ∧
      st'.encodePicParams.inputPitch = st.encodePicParams.inputPitch ∧
      st'.encodePicParams.bufferFmt = st.encodePicParams.bufferFmt ∧
      st'.encodePicParams.pictureStruct = st.encodePicParams.pictureStruct ∧
      st'.encodePicParams.otherFields = st.encodePicParams.otherFields ∧
      (∀ (t2 ts2 p2 : Nat) (pp2 : NV_ENC_PIC_PARAMS) (i2 : Fin BUFFER_SIZE)
        (st2 : EncoderInputState),
        encodeFrame st' t2 ts2
            { mapResult := none, mappedPtr := p2, encodeResult := none } =
          .ok pp2 i2 st2 →
        pp2.encodePicFlags = 0) := by
  intro st t ts p pp i st' h
  have h1 := encodeFrame_ok_pic_params h
  refine ⟨h1.1, h1.2.1, h1.2.2.1, h1.2.2.2.1, h1.2.2.2.2.1, h1.2.2.2.2.2.1,
    h1.2.2.2.2.2.2.1, h1.2.2.2.2.2.2.2.1, h1.2.2.2.2.2.2.2.2, ?_⟩
  intro t2 ts2 p2 pp2 i2 st2 h2
  have h3 := encodeFrame_ok_pic_params h2
  rw [h3.2.1, h1.1]

/-- A fresh encoder-input state for the C10 witness. -/
def c10St : EncoderInputState := { shared := initShared, encodePicParams := ppZero }

/-- The outcome of encoding one frame right after `force_idr_on_next`. -/
def c10Res : EncodeOutcome :=
  encodeFrame (forceIdrOnNext c10St) 3 4
    { mapResult := none, mappedPtr := 7, encodeResult := none }

/-- The pic-params snapshot submitted by the C10 witness call. -/
def c10Pp : NV_ENC_PIC_PARAMS :=
  match c10Res with
  | .ok pp _ _ => pp
  | _ => ppZero

/-- The slot index used by the C10 witness call. -/
def c10Idx : Fin BUFFER_SIZE :=
  match c10Res with
  | .ok _ i _ => i
  | _ => finMod 0

/-- The post state of the C10 witness call. -/
def c10Next : EncoderInputState :=
  match c10Res with
  | .ok _ _ st => st
  | _ => c10St

/-- Witness for C10: after `force_idr_on_next`, the next frame is
submitted with the FORCEIDR and OUTPUT_SPSPPS flags, and afterwards the
pending flags are back to 0. -/
theorem c10_flags_reset_after_successful_encode_witness :
    encodeFrame (forceIdrOnNext c10St) 3 4
        { mapResult := none, mappedPtr := 7, encodeResult := none } =
      .ok c10Pp c10Idx c10Next ∧
    c10Pp.encodePicFlags =
      (NV_ENC_PIC_FLAG_FORCEIDR ||| NV_ENC_PIC_FLAG_OUTPUT_SPSPPS) ∧
    c10Next.encodePicParams.encodePicFlags = 0 := by
  have h : encodeFrame (forceIdrOnNext c10St) 3 4
      { mapResult := none, mappedPtr := 7, encodeResult := none } =
    .ok c10Pp c10Idx c10Next := rfl
  refine ⟨h, rfl, ?_⟩
  exact (c10_flags_reset_after_successful_encode (forceIdrOnNext c10St) 3 4 7
    c10Pp c10Idx c10Next h).1

/-! ## Concrete traces witnessing the pipeline claims -/

/-- The spec's section 8 scenario adapted to capacity 8: submit frames 10
and 20, let the driver signal slot 1 BEFORE slot 0, then receive twice. -/
def c1Acts : List EncoderAct :=
  [.submit 10 0, .submit 20 1, .signal (finMod 1), .signal (finMod 0), .recv, .recv]

/-- The state reached by `c1Acts`. -/
def c1State : PipelineSys :=
  (runPipeline (initSys ppZero) c1Acts).getD (initSys ppZero)

/-- Witness for C1: even with the completion signals arriving in reversed
order, the two receives deliver frame 10 then frame 20 — submission
order. -/
theorem c1_output_order_equals_submission_order_witness :
    runPipeline (initSys ppZero) c1Acts = some c1State ∧
    c1State.submitted = [10, 20] ∧
    c1State.received = [10, 20] ∧
    c1State.received = c1State.submitted.take c1State.received.length := by
  have hrun : runPipeline (initSys ppZero) c1Acts = some c1State := rfl
  refine ⟨hrun, by decide, by decide, ?_⟩
  exact (c1_output_order_equals_submission_order ppZero c1Acts c1State hrun).1

/-- Eight submissions with no retrieval: the ring is full. -/
def c2Acts : List EncoderAct :=
  [.submit 1 1, .submit 2 2, .submit 3 3, .submit 4 4,
   .submit 5 5, .submit 6 6, .submit 7 7, .submit 8 8]

/-- The state reached by `c2Acts`. -/
def c2State : PipelineSys :=
  (runPipeline (initSys ppZero) c2Acts).getD (initSys ppZero)

/-- Witness for C2: after `BUFFER_SIZE` submissions and zero retrievals
the channel is full and a ninth submission blocks (the step is not
enabled, so no state is touched). -/
theorem c2_capacity_bound_and_backpressure_witness :
    runPipeline (initSys ppZero) c2Acts = some c2State ∧
    c2State.enc.shared.channel.length = BUFFER_SIZE ∧
    pipelineStep c2State (.submit 99 99) = none := by
  have hrun : runPipeline (initSys ppZero) c2Acts = some c2State := rfl
  refine ⟨hrun, rfl, ?_⟩
  exact ((c2_capacity_bound_and_backpressure.2 ppZero c2Acts c2State hrun).2 rfl).1 99 99

/-- Two submissions, then a third one fires. -/
def c7Acts : List EncoderAct := [.submit 5 0, .submit 6 1]

/-- The state reached by `c7Acts`. -/
def c7State : PipelineSys :=
  (runPipeline (initSys ppZero) c7Acts).getD (initSys ppZero)

/-- The state after a third submission from `c7State`. -/
def c7Next : PipelineSys :=
  (pipelineStep c7State (.submit 7 2)).getD c7State

/-- Witness for C7: the third submission acquires exactly slot
`2 mod 8 = 2`. -/
theorem c7_round_robin_write_selection_witness :
    runPipeline (initSys ppZero) c7Acts = some c7State ∧
    pipelineStep c7State (.submit 7 2) = some c7Next ∧
    c7State.submitted.length = 2 ∧
    acquireSlotForWrite c7State.enc.shared = some (finMod c7State.submitted.length) := by
  have hrun : runPipeline (initSys ppZero) c7Acts = some c7State := rfl
  have hstep : pipelineStep c7State (.submit 7 2) = some c7Next := rfl
  refine ⟨hrun, hstep, by decide, ?_⟩
  exact (c7_round_robin_write_selection ppZero c7Acts c7State hrun 7 2 c7Next hstep).1
